import Mathlib

set_option autoImplicit false

namespace Tonic

/-- gRPC status codes (crate::Code). The wire integers are given by `Code.toWire`. -/
inductive Code where
  | Ok
  | Cancelled
  | Unknown
  | InvalidArgument
  | DeadlineExceeded
  | NotFound
  | AlreadyExists
  | PermissionDenied
  | ResourceExhausted
  | FailedPrecondition
  | Aborted
  | OutOfRange
  | Unimplemented
  | Internal
  | Unavailable
  | DataLoss
  | Unauthenticated
  deriving DecidableEq

/-- Wire integer of a status code, per the status-code table of the wire protocol. -/
def Code.toWire : Code → Nat
  | .Ok => 0
  | .Cancelled => 1
  | .Unknown => 2
  | .InvalidArgument => 3
  | .DeadlineExceeded => 4
  | .NotFound => 5
  | .AlreadyExists => 6
  | .PermissionDenied => 7
  | .ResourceExhausted => 8
  | .FailedPrecondition => 9
  | .Aborted => 10
  | .OutOfRange => 11
  | .Unimplemented => 12
  | .Internal => 13
  | .Unavailable => 14
  | .DataLoss => 15
  | .Unauthenticated => 16

/-- A gRPC status: a code plus a message (crate::Status, observable part). -/
structure Status where
  code : Code
  message : String
  deriving DecidableEq

/-- Modelled from the spec: the closed enumeration of non-identity compression
algorithms (crate::codec::compression::CompressionEncoding, not under src/).
Identity is represented as the absence of an encoding (`Option.none`). -/
inductive CompressionEncoding where
  | gzip
  | zstd
  deriving DecidableEq

/-- The header name of a compression encoding. -/
def CompressionEncoding.name : CompressionEncoding → String
  | .gzip => "gzip"
  | .zstd => "zstd"

/-- Modelled from the spec: the enabled set of compression encodings is an
immutable bitset (crate::codec::compression::EnabledCompressionEncodings,
not under src/). -/
structure EnabledCompressionEncodings where
  gzip : Bool
  zstd : Bool
  deriving DecidableEq

/-- The default enabled set: nothing enabled (identity only). -/
def EnabledCompressionEncodings.default : EnabledCompressionEncodings :=
  { gzip := false, zstd := false }

/-- Membership in the enabled set. -/
def EnabledCompressionEncodings.is_enabled
    (s : EnabledCompressionEncodings) (e : CompressionEncoding) : Bool :=
  match e with
  | .gzip => s.gzip
  | .zstd => s.zstd

/-- Enable one encoding in the set. -/
def EnabledCompressionEncodings.enable
    (s : EnabledCompressionEncodings) (e : CompressionEncoding) : EnabledCompressionEncodings :=
  match e with
  | .gzip => { s with gzip := true }
  | .zstd => { s with zstd := true }

/-- Modelled from the spec: the names the negotiation failure message enumerates
for the accepted set; identity is always accepted. -/
def EnabledCompressionEncodings.accepted_names (s : EnabledCompressionEncodings) : List String :=
  (if s.gzip then ["gzip"] else []) ++ (if s.zstd then ["zstd"] else []) ++ ["identity"]

/-- Modelled from the spec: the Unimplemented status produced when a request
names an encoding outside the accepted set, with a standardized message
enumerating the accepted encodings (crate::codec::compression, not under src/). -/
def unsupported_encoding_status (s : EnabledCompressionEncodings) : Status :=
  { code := Code.Unimplemented,
    message := "Content is compressed with an encoding that is not supported; accept-encoding: "
      ++ String.intercalate "," s.accepted_names }

/-- A structural model of one encoding name as it appears in the grpc-encoding
or grpc-accept-encoding headers: identity, a known algorithm, or an unknown name. -/
inductive EncodingHeaderValue where
  | identity
  | known (e : CompressionEncoding)
  | unknown (name : String)
  deriving DecidableEq

/-- Whether a named encoding is in the accepted set (identity always is). -/
def EncodingHeaderValue.accepted_by
    (v : EncodingHeaderValue) (s : EnabledCompressionEncodings) : Bool :=
  match v with
  | .identity => true
  | .known e => s.is_enabled e
  | .unknown _ => false

/-- Modelled from the spec: parsing the grpc-encoding request header
(CompressionEncoding::from_encoding_header, not under src/). Absent or identity
means no decompression; a supported encoding is used; anything else fails with
Unimplemented and the standardized message enumerating the accepted set. -/
def CompressionEncoding.from_encoding_header
    (h : Option EncodingHeaderValue) (enabled : EnabledCompressionEncodings) :
    Except Status (Option CompressionEncoding) :=
  match h with
  | none => Except.ok none
  | some EncodingHeaderValue.identity => Except.ok none
  | some (EncodingHeaderValue.known e) =>
      if enabled.is_enabled e then Except.ok (some e)
      else Except.error (unsupported_encoding_status enabled)
  | some (EncodingHeaderValue.unknown _) =>
      Except.error (unsupported_encoding_status enabled)

/-- Modelled from the spec: response-encoding negotiation
(CompressionEncoding::from_accept_encoding_header, not under src/): intersect
the client list with the offered set and pick the first supported entry, or none. -/
def CompressionEncoding.from_accept_encoding_header
    (h : List EncodingHeaderValue) (enabled : EnabledCompressionEncodings) :
    Option CompressionEncoding :=
  (h.filterMap fun v =>
    match v with
    | EncodingHeaderValue.known e => if enabled.is_enabled e then some e else none
    | _ => none).head?

/-- A metadata map: keys with their per-key value lists, in insertion order
(crate::metadata::MetadataMap, observable part). -/
structure MetadataMap where
  entries : List (String × List String)
  deriving DecidableEq

/-- Look up the values of a key. -/
def MetadataMap.get? (m : MetadataMap) (k : String) : Option (List String) :=
  (m.entries.find? fun p => p.1 == k).map Prod.snd

/-- Set the values of a key, dropping any previous values of that key
(the insertion discipline of the underlying header map). -/
def meta_insert (l : List (String × List String)) (k : String) (vs : List String) :
    List (String × List String) :=
  (l.filter fun p => !(p.1 == k)) ++ [(k, vs)]

/-- Modelled from the spec: MetadataMap::merge (crate::metadata, not under src/),
which extends the header map of `m` with the entries of `other`. Following
section 5 of the spec, trailers take precedence on duplicate keys: a key present
in `other` replaces the values it had in `m`; keys only in `other` are added. -/
def MetadataMap.merge (m other : MetadataMap) : MetadataMap :=
  { entries := other.entries.foldl (fun acc p => meta_insert acc p.1 p.2) m.entries }

/-- The request headers the dispatcher reads: the two compression headers in
structural form, plus the full header map as request metadata. -/
structure HttpRequestHeaders where
  grpc_encoding : Option EncodingHeaderValue
  grpc_accept_encoding : List EncodingHeaderValue
  metadata : MetadataMap
  deriving DecidableEq

/-- An http request: headers plus a body of some type. -/
structure HttpRequest (B : Type) where
  headers : HttpRequestHeaders
  body : B
  deriving DecidableEq

instance exceptDecEq {E A : Type} [DecidableEq E] [DecidableEq A] : DecidableEq (Except E A) :=
  fun x y =>
    match x, y with
    | Except.ok a, Except.ok b =>
      if h : a = b then isTrue (by rw [h])
      else isFalse (by intro hc; injection hc; contradiction)
    | Except.ok _, Except.error _ => isFalse (by intro hc; exact Except.noConfusion hc)
    | Except.error _, Except.ok _ => isFalse (by intro hc; exact Except.noConfusion hc)
    | Except.error a, Except.error b =>
      if h : a = b then isTrue (by rw [h])
      else isFalse (by intro hc; injection hc; contradiction)

/-- Modelled from the spec: the observations map_request_unary makes of the
framed-stream decoder over a request body (codec::Streaming, not under src/):
the outcome of the first try_next and the outcome of awaiting the trailers. -/
structure UnaryBodyModel (M : Type) where
  first_message : Except Status (Option M)
  trailers : Except Status (Option MetadataMap)
  deriving DecidableEq

/-- A typed gRPC request as seen by a user service (crate::Request):
metadata plus the decoded message (or message stream). -/
structure Request (M : Type) where
  metadata : MetadataMap
  message : M
  deriving DecidableEq

/-- Request::from_http_parts: the http header map becomes the request metadata. -/
def Request.from_http_parts {M : Type} (parts : HttpRequestHeaders) (message : M) : Request M :=
  { metadata := parts.metadata, message := message }

/-- Request::from_http on a mapped http request. -/
def Request.from_http {B : Type} (r : HttpRequest B) : Request B :=
  { metadata := r.headers.metadata, message := r.body }

/-- Modelled from the spec: the framed-stream decoder handed to streaming
services (codec::Streaming, not under src/), represented by its construction
arguments: the raw body, the negotiated request encoding, and the size limit. -/
structure Streaming (B : Type) where
  body : B
  encoding : Option CompressionEncoding
  max_message_size : Option Nat
  deriving DecidableEq

/-- Streaming::new_request records its arguments. -/
def Streaming.new_request {B : Type} (body : B) (encoding : Option CompressionEncoding)
    (max_message_size : Option Nat) : Streaming B :=
  { body := body, encoding := encoding, max_message_size := max_message_size }

/-- The per-response compression override extension
(codec::compression::SingleMessageCompressionOverride). -/
inductive SingleMessageCompressionOverride where
  | inherit
  | disable
  deriving DecidableEq

/-- The derived Default: inherit the negotiated setting. -/
def SingleMessageCompressionOverride.default : SingleMessageCompressionOverride :=
  SingleMessageCompressionOverride.inherit

/-- A typed gRPC response returned by a user service (crate::Response):
metadata, the extension map restricted to the one key the dispatcher reads,
and the message (or message stream). -/
structure Response (M : Type) where
  metadata : MetadataMap
  extensions_compression_override : Option SingleMessageCompressionOverride
  message : M
  deriving DecidableEq

/-- Response::map: transform the message, keeping metadata and extensions. -/
def Response.map {A B : Type} (r : Response A) (f : A → B) : Response B :=
  { metadata := r.metadata,
    extensions_compression_override := r.extensions_compression_override,
    message := f r.message }

/-- compression_override_from_response: read the override extension from a
successful response, defaulting to inherit. -/
def compression_override_from_response {B E : Type} (res : Except E (Response B)) :
    SingleMessageCompressionOverride :=
  match res with
  | Except.ok response =>
      response.extensions_compression_override.getD SingleMessageCompressionOverride.default
  | Except.error _ => SingleMessageCompressionOverride.default

/-- Modelled from the spec: the framed response body produced by encode_server
(codec::encode, not under src/), represented by its inputs: the response stream
and the encoding parameters it was invoked with. -/
structure EncodedBody (M : Type) where
  source : List (Except Status M)
  accept_encoding : Option CompressionEncoding
  compression_override : SingleMessageCompressionOverride
  max_message_size : Option Nat
  deriving DecidableEq

/-- The body of a dispatcher http response: either a trailers-only failure or a
framed message stream. -/
inductive ResponseBody (M : Type) where
  | trailers_only (status : Status)
  | framed (b : EncodedBody M)
  deriving DecidableEq

/-- An http response: status line, header map, body. -/
structure HttpResponse (M : Type) where
  http_status : Nat
  headers : List (String × String)
  body : ResponseBody M
  deriving DecidableEq

/-- Insert a header, dropping any previous values of that key (the insertion
discipline of the http header map; the order of unrelated headers is kept). -/
def header_insert (hs : List (String × String)) (k v : String) : List (String × String) :=
  (hs.filter fun p => !(p.1 == k)) ++ [(k, v)]

/-- Whether the header map contains the pair (k, v). -/
def has_header (hs : List (String × String)) (k v : String) : Bool :=
  hs.any fun p => p.1 == k && p.2 == v

/-- Modelled from the spec: Response::into_http emits the response metadata as
http headers (crate::Response, not under src/). -/
def metadata_headers (m : MetadataMap) : List (String × String) :=
  m.entries.foldr (fun p acc => (p.2.map fun v => (p.1, v)) ++ acc) []

/-- Modelled from the spec: the trailer block of a trailers-only response:
grpc-status with the wire integer, and on non-OK the grpc-message. -/
def trailers_only_trailers (s : Status) : List (String × String) :=
  ("grpc-status", Nat.repr s.code.toWire)
    :: (if s.code = Code.Ok then [] else [("grpc-message", s.message)])

/-- Modelled from the spec: Status::to_http (crate::Status, not under src/):
a failure becomes a trailers-only HTTP 200 response carrying content-type
application/grpc and the grpc-status trailer block. Its only input is the
status itself, as at the call sites in src/server/grpc.rs. -/
def Status.to_http {M : Type} (s : Status) : HttpResponse M :=
  { http_status := 200,
    headers := [("content-type", "application/grpc")],
    body := ResponseBody.trailers_only s }

/-- The server dispatcher (server::Grpc). -/
structure Grpc (T : Type) where
  codec : T
  accept_compression_encodings : EnabledCompressionEncodings
  send_compression_encodings : EnabledCompressionEncodings
  max_decoding_message_size : Option Nat
  max_encoding_message_size : Option Nat

/-- Grpc::new: wrap a codec with empty compression sets and unset size limits. -/
def Grpc.new {T : Type} (codec : T) : Grpc T :=
  { codec := codec,
    accept_compression_encodings := EnabledCompressionEncodings.default,
    send_compression_encodings := EnabledCompressionEncodings.default,
    max_decoding_message_size := none,
    max_encoding_message_size := none }

/-- Grpc::accept_compressed: enable accepting one compressed request encoding. -/
def Grpc.accept_compressed {T : Type} (g : Grpc T) (encoding : CompressionEncoding) : Grpc T :=
  { g with accept_compression_encodings := g.accept_compression_encodings.enable encoding }

/-- Grpc::send_compressed: enable offering one compressed response encoding. -/
def Grpc.send_compressed {T : Type} (g : Grpc T) (encoding : CompressionEncoding) : Grpc T :=
  { g with send_compression_encodings := g.send_compression_encodings.enable encoding }

/-- Modelled from the spec: the 4 MiB default message size limit the framed
codec applies when the dispatcher leaves a limit unset (codec module, not under
src/; the builder doc comments in src/server/grpc.rs state the 4MB default for
both directions). -/
def DEFAULT_MAX_MESSAGE_SIZE : Nat := 4 * 1024 * 1024

/-- The limit effectively enforced for an optional configured limit. -/
def effective_message_size_limit (limit : Option Nat) : Nat :=
  limit.getD DEFAULT_MAX_MESSAGE_SIZE

/-- Grpc::request_encoding_if_supported. -/
def Grpc.request_encoding_if_supported {T B : Type} (g : Grpc T) (request : HttpRequest B) :
    Except Status (Option CompressionEncoding) :=
  CompressionEncoding.from_encoding_header request.headers.grpc_encoding
    g.accept_compression_encodings

/-- Grpc::map_request_unary: negotiate the request encoding, read exactly one
message from the framed stream (failing with Internal if none arrives before
end-of-stream), then merge terminal trailers into the request metadata. -/
def Grpc.map_request_unary {T M : Type} (g : Grpc T)
    (request : HttpRequest (UnaryBodyModel M)) : Except Status (Request M) :=
  match g.request_encoding_if_supported request with
  | Except.error s => Except.error s
  | Except.ok _request_compression_encoding =>
    match request.body.first_message with
    | Except.error s => Except.error s
    | Except.ok none =>
        Except.error { code := Code.Internal, message := "Missing request message." }
    | Except.ok (some message) =>
      let req := Request.from_http_parts request.headers message
      match request.body.trailers with
      | Except.error s => Except.error s
      | Except.ok (some trailers) =>
          Except.ok { req with metadata := req.metadata.merge trailers }
      | Except.ok none => Except.ok req

/-- Grpc::map_request_streaming: negotiate the request encoding and hand the
framed-stream decoder to the service without reading any message. -/
def Grpc.map_request_streaming {T B : Type} (g : Grpc T) (request : HttpRequest B) :
    Except Status (Request (Streaming B)) :=
  match g.request_encoding_if_supported request with
  | Except.error s => Except.error s
  | Except.ok encoding =>
      Except.ok (Request.from_http
        { headers := request.headers,
          body := Streaming.new_request request.body encoding g.max_decoding_message_size })

/-- Grpc::map_response: a failure becomes Status::to_http; a success becomes an
HTTP 200 response with content-type application/grpc, with grpc-encoding set to
the negotiated response encoding when there is one (the gzip/zstd features are
taken as enabled), and with the body framed by encode_server. -/
def Grpc.map_response {T M : Type} (_g : Grpc T)
    (response : Except Status (Response (List (Except Status M))))
    (accept_encoding : Option CompressionEncoding)
    (compression_override : SingleMessageCompressionOverride)
    (max_message_size : Option Nat) : HttpResponse M :=
  match response with
  | Except.error status => status.to_http
  | Except.ok response =>
    let parts_headers := metadata_headers response.metadata
    let parts_headers := header_insert parts_headers "content-type" "application/grpc"
    let parts_headers :=
      match accept_encoding with
      | some encoding => header_insert parts_headers "grpc-encoding" encoding.name
      | none => parts_headers
    { http_status := 200,
      headers := parts_headers,
      body := ResponseBody.framed
        { source := response.message,
          accept_encoding := accept_encoding,
          compression_override := compression_override,
          max_message_size := max_message_size } }

/-- Grpc::unary: handle a single unary request. -/
def Grpc.unary {T M R : Type} (g : Grpc T)
    (service : Request M → Except Status (Response R))
    (req : HttpRequest (UnaryBodyModel M)) : HttpResponse R :=
  let accept_encoding := CompressionEncoding.from_accept_encoding_header
    req.headers.grpc_accept_encoding g.send_compression_encodings
  match g.map_request_unary req with
  | Except.error status =>
      g.map_response (Except.error status) accept_encoding
        SingleMessageCompressionOverride.default g.max_encoding_message_size
  | Except.ok request =>
    let response := (service request).map fun r => r.map fun m => [Except.ok m]
    let compression_override := compression_override_from_response response
    g.map_response response accept_encoding compression_override g.max_encoding_message_size

/-- Grpc::server_streaming: handle a server side streaming request; disabling
compression of individual stream items must be done on the items themselves,
so the default override is always passed. -/
def Grpc.server_streaming {T M R : Type} (g : Grpc T)
    (service : Request M → Except Status (Response (List (Except Status R))))
    (req : HttpRequest (UnaryBodyModel M)) : HttpResponse R :=
  let accept_encoding := CompressionEncoding.from_accept_encoding_header
    req.headers.grpc_accept_encoding g.send_compression_encodings
  match g.map_request_unary req with
  | Except.error status =>
      g.map_response (Except.error status) accept_encoding
        SingleMessageCompressionOverride.default g.max_encoding_message_size
  | Except.ok request =>
      g.map_response (service request) accept_encoding
        SingleMessageCompressionOverride.default g.max_encoding_message_size

/-- Grpc::client_streaming: handle a client side streaming request. -/
def Grpc.client_streaming {T B R : Type} (g : Grpc T)
    (service : Request (Streaming B) → Except Status (Response R))
    (req : HttpRequest B) : HttpResponse R :=
  let accept_encoding := CompressionEncoding.from_accept_encoding_header
    req.headers.grpc_accept_encoding g.send_compression_encodings
  match g.map_request_streaming req with
  | Except.error status => status.to_http
  | Except.ok request =>
    let response := (service request).map fun r => r.map fun m => [Except.ok m]
    let compression_override := compression_override_from_response response
    g.map_response response accept_encoding compression_override g.max_encoding_message_size

/-- Grpc::streaming: handle a bi-directional streaming request; the default
override is always passed. -/
def Grpc.streaming {T B R : Type} (g : Grpc T)
    (service : Request (Streaming B) → Except Status (Response (List (Except Status R))))
    (req : HttpRequest B) : HttpResponse R :=
  let accept_encoding := CompressionEncoding.from_accept_encoding_header
    req.headers.grpc_accept_encoding g.send_compression_encodings
  match g.map_request_streaming req with
  | Except.error status => status.to_http
  | Except.ok request =>
      g.map_response (service request) accept_encoding
        SingleMessageCompressionOverride.default g.max_encoding_message_size

/-- transport::channel::DEFAULT_BUFFER_SIZE. -/
def DEFAULT_BUFFER_SIZE : Nat := 1024

/-- Modelled from the spec: an endpoint configuration (transport endpoint
module, not under src/); only its URI matters to the channel-construction
claims, as the key of the Insert change. -/
structure Endpoint where
  uri : String
  deriving DecidableEq

/-- A discovery change event (tower Change). -/
inductive Change (K S : Type) where
  | Insert (key : K) (service : S)
  | Remove (key : K)
  deriving DecidableEq

/-- Modelled from the spec: a bounded mpsc queue (the tokio channel feeding the
discovery stream), as its capacity and current contents; nothing drains it
while the constructing call runs. -/
structure BoundedQueue (A : Type) where
  capacity : Nat
  items : List A
  deriving DecidableEq

/-- A fresh empty queue of the given capacity. -/
def BoundedQueue.new (A : Type) (capacity : Nat) : BoundedQueue A :=
  { capacity := capacity, items := [] }

/-- The failure of a non-blocking send. -/
inductive TrySendError where
  | full
  deriving DecidableEq

/-- try_send: enqueue if there is room, fail with full otherwise. -/
def BoundedQueue.try_send {A : Type} (q : BoundedQueue A) (a : A) :
    Except TrySendError (BoundedQueue A) :=
  if q.items.length < q.capacity then Except.ok { q with items := q.items ++ [a] }
  else Except.error TrySendError.full

/-- The abrupt termination caused by calling unwrap on a failed try_send. -/
inductive UnwrapPanic where
  | panicked
  deriving DecidableEq

/-- The DynamicServiceStream wrapping the receiving end of the change queue. -/
structure DynamicServiceStream (K : Type) where
  rx : BoundedQueue (Change K Endpoint)

/-- The observable construction parameters of a transport Channel: the bound of
the request Buffer between channel clones and the worker, and the capacity of
the discovery change queue its balancer consumes. -/
structure Channel (K : Type) where
  request_buffer_size : Nat
  discover_queue_capacity : Nat
  deriving DecidableEq

/-- Channel::balance: box the balancer over the discovery stream and pair it
with a request Buffer of the given size. -/
def Channel.balance {K E : Type} (discover : DynamicServiceStream K) (buffer_size : Nat)
    (_executor : E) : Channel K :=
  { request_buffer_size := buffer_size, discover_queue_capacity := discover.rx.capacity }

/-- The pair returned by balance_channel: the channel and the sending end of the
change queue (with the queue state it sends into). -/
structure BalanceChannel (K : Type) where
  channel : Channel K
  sender : BoundedQueue (Change K Endpoint)

/-- The default tokio executor handle. -/
def SharedExec.tokio : Unit := ()

/-- Channel::balance_channel_with_executor: create the change queue with the
given capacity, wrap its receiving end in a DynamicServiceStream, and build the
balanced channel with the default request buffer size. -/
def Channel.balance_channel_with_executor (K E : Type) (capacity : Nat) (executor : E) :
    BalanceChannel K :=
  let rx := BoundedQueue.new (Change K Endpoint) capacity
  let list : DynamicServiceStream K := { rx := rx }
  { channel := Channel.balance list DEFAULT_BUFFER_SIZE executor, sender := rx }

/-- Channel::balance_channel: balance_channel_with_executor on the tokio executor. -/
def Channel.balance_channel (K : Type) (capacity : Nat) : BalanceChannel K :=
  Channel.balance_channel_with_executor K Unit capacity SharedExec.tokio

/-- The for_each loop of balance_list: try_send each change in order, calling
unwrap on the result. -/
def try_send_all {A : Type} (q : BoundedQueue A) (xs : List A) :
    Except UnwrapPanic (BoundedQueue A) :=
  match xs with
  | [] => Except.ok q
  | x :: rest =>
    match q.try_send x with
    | Except.ok q' => try_send_all q' rest
    | Except.error _ => Except.error UnwrapPanic.panicked

/-- Channel::balance_list: create a balance channel with the default buffer
size, then try_send one Insert change per endpoint, keyed by its URI, in
iterator order, unwrapping each result; returns the channel (paired here with
the final queue state it observes). -/
def Channel.balance_list (list : List Endpoint) :
    Except UnwrapPanic (Channel String × BoundedQueue (Change String Endpoint)) :=
  let bc := Channel.balance_channel String DEFAULT_BUFFER_SIZE
  match try_send_all bc.sender (list.map fun endpoint => Change.Insert endpoint.uri endpoint) with
  | Except.ok q => Except.ok (bc.channel, q)
  | Except.error e => Except.error e

/-- The claim C8 reading of balance_list, stated extensionally from the words
of the spec: a balance channel created with the default buffer size 1024, whose
change queue holds one Insert event per endpoint in iterator order when they
all fit, the construction aborting otherwise. -/
def balance_list_spec (list : List Endpoint) :
    Except UnwrapPanic (Channel String × BoundedQueue (Change String Endpoint)) :=
  if list.length ≤ 1024 then
    Except.ok
      ({ request_buffer_size := 1024, discover_queue_capacity := 1024 },
       { capacity := 1024, items := list.map fun endpoint => Change.Insert endpoint.uri endpoint })
  else Except.error UnwrapPanic.panicked

/-- The status, if any, with which the unary pipeline fails: a negotiation or
body-decoding failure from map_request_unary, or the user service returning an
error. -/
def Grpc.unary_failure {T M R : Type} (g : Grpc T)
    (service : Request M → Except Status (Response R))
    (req : HttpRequest (UnaryBodyModel M)) : Option Status :=
  match g.map_request_unary req with
  | Except.error s => some s
  | Except.ok request =>
    match service request with
    | Except.error s => some s
    | Except.ok _ => none

/-- The status, if any, with which the server-streaming pipeline fails. -/
def Grpc.server_streaming_failure {T M R : Type} (g : Grpc T)
    (service : Request M → Except Status (Response (List (Except Status R))))
    (req : HttpRequest (UnaryBodyModel M)) : Option Status :=
  match g.map_request_unary req with
  | Except.error s => some s
  | Except.ok request =>
    match service request with
    | Except.error s => some s
    | Except.ok _ => none

/-- The status, if any, with which the client-streaming pipeline fails. -/
def Grpc.client_streaming_failure {T B R : Type} (g : Grpc T)
    (service : Request (Streaming B) → Except Status (Response R))
    (req : HttpRequest B) : Option Status :=
  match g.map_request_streaming req with
  | Except.error s => some s
  | Except.ok request =>
    match service request with
    | Except.error s => some s
    | Except.ok _ => none

/-- The status, if any, with which the bi-directional streaming pipeline fails. -/
def Grpc.streaming_failure {T B R : Type} (g : Grpc T)
    (service : Request (Streaming B) → Except Status (Response (List (Except Status R))))
    (req : HttpRequest B) : Option Status :=
  match g.map_request_streaming req with
  | Except.error s => some s
  | Except.ok request =>
    match service request with
    | Except.error s => some s
    | Except.ok _ => none

/-- The compression override the response body encoder was invoked with, when
the response carries a framed body. -/
def HttpResponse.framed_compression_override {M : Type} (r : HttpResponse M) :
    Option SingleMessageCompressionOverride :=
  match r.body with
  | ResponseBody.framed b => some b.compression_override
  | ResponseBody.trailers_only _ => none

/-- An empty metadata map, for concrete instances. -/
def exMeta : MetadataMap := { entries := [] }

/-- Plain request headers: no compression headers, empty metadata. -/
def exHeaders : HttpRequestHeaders :=
  { grpc_encoding := none, grpc_accept_encoding := [], metadata := exMeta }

/-- A body that yields one message and no trailers. -/
def exBodyOne : UnaryBodyModel Nat :=
  { first_message := Except.ok (some 0), trailers := Except.ok none }

/-- A body that reaches end-of-stream before any message. -/
def exBodyEmpty : UnaryBodyModel Nat :=
  { first_message := Except.ok none, trailers := Except.ok none }

/-- A unary request with one message. -/
def exUReqOne : HttpRequest (UnaryBodyModel Nat) := { headers := exHeaders, body := exBodyOne }

/-- A unary request whose body is empty. -/
def exUReqEmpty : HttpRequest (UnaryBodyModel Nat) := { headers := exHeaders, body := exBodyEmpty }

/-- A streaming request with a unit body. -/
def exSReq : HttpRequest Unit := { headers := exHeaders, body := () }

/-- A concrete failure status. -/
def exStatusBoom : Status := { code := Code.Internal, message := "boom" }

/-- A unary service that always fails with exStatusBoom. -/
def exFailUsvc : Request Nat → Except Status (Response Nat) :=
  fun _ => Except.error exStatusBoom

/-- A server-streaming service that always fails with exStatusBoom. -/
def exFailSsvc : Request Nat → Except Status (Response (List (Except Status Nat))) :=
  fun _ => Except.error exStatusBoom

/-- A client-streaming service that always fails with exStatusBoom. -/
def exFailCsvc : Request (Streaming Unit) → Except Status (Response Nat) :=
  fun _ => Except.error exStatusBoom

/-- A bi-directional service that always fails with exStatusBoom. -/
def exFailBsvc : Request (Streaming Unit) → Except Status (Response (List (Except Status Nat))) :=
  fun _ => Except.error exStatusBoom

/-- A response carrying the disable compression override extension. -/
def exRespDisable : Response Nat :=
  { metadata := exMeta,
    extensions_compression_override := some SingleMessageCompressionOverride.disable,
    message := 7 }

/-- A unary service returning exRespDisable. -/
def exDisUsvc : Request Nat → Except Status (Response Nat) :=
  fun _ => Except.ok exRespDisable

/-- A client-streaming service returning exRespDisable. -/
def exDisCsvc : Request (Streaming Unit) → Except Status (Response Nat) :=
  fun _ => Except.ok exRespDisable

/-- Headers naming the gzip request encoding. -/
def c3hdrs : HttpRequestHeaders :=
  { grpc_encoding := some (EncodingHeaderValue.known CompressionEncoding.gzip),
    grpc_accept_encoding := [], metadata := exMeta }

/-- A unary request whose initial headers and body trailers both carry the key k. -/
def c6req : HttpRequest (UnaryBodyModel Nat) :=
  { headers :=
      { grpc_encoding := none, grpc_accept_encoding := [],
        metadata := { entries := [("k", ["h1"])] } },
    body :=
      { first_message := Except.ok (some 0),
        trailers := Except.ok (some { entries := [("k", ["t1"])] }) } }

/-- A server offering gzip responses. -/
def c7g : Grpc Unit := (Grpc.new ()).send_compressed CompressionEncoding.gzip

/-- A request accepting gzip responses whose body fails to decode a message. -/
def c7req : HttpRequest (UnaryBodyModel Nat) :=
  { headers :=
      { grpc_encoding := none,
        grpc_accept_encoding := [EncodingHeaderValue.known CompressionEncoding.gzip],
        metadata := exMeta },
    body := { first_message := Except.ok none, trailers := Except.ok none } }

/-- An echo unary service. -/
def c7svc : Request Nat → Except Status (Response Nat) :=
  fun r => Except.ok
    { metadata := exMeta, extensions_compression_override := none, message := r.message }

/-- An endpoint for channel examples. -/
def exEndpoint : Endpoint := { uri := "http://a" }

theorem try_send_all_fits {A : Type} (xs : List A) (q : BoundedQueue A)
    (h : q.items.length + xs.length ≤ q.capacity) :
    try_send_all q xs = Except.ok { capacity := q.capacity, items := q.items ++ xs } := by
  induction xs generalizing q with
  | nil => simp [try_send_all]
  | cons x rest ih =>
    have hlt : q.items.length < q.capacity := by
      simp only [List.length_cons] at h
      omega
    have h2 : (({ q with items := q.items ++ [x] } : BoundedQueue A)).items.length + rest.length
        ≤ ({ q with items := q.items ++ [x] } : BoundedQueue A).capacity := by
      simp only [List.length_append, List.length_cons, List.length_nil]
      simp only [List.length_cons] at h
      omega
    calc try_send_all q (x :: rest)
        = try_send_all { q with items := q.items ++ [x] } rest := by
          simp [try_send_all, BoundedQueue.try_send, hlt]
      _ = Except.ok { capacity := q.capacity, items := (q.items ++ [x]) ++ rest } := ih _ h2
      _ = Except.ok { capacity := q.capacity, items := q.items ++ (x :: rest) } := by
          simp

theorem try_send_all_overflow {A : Type} (xs : List A) (q : BoundedQueue A)
    (hinv : q.items.length ≤ q.capacity) (h : q.capacity < q.items.length + xs.length) :
    try_send_all q xs = Except.error UnwrapPanic.panicked := by
  induction xs generalizing q with
  | nil =>
    simp only [List.length_nil] at h
    omega
  | cons x rest ih =>
    by_cases hlt : q.items.length < q.capacity
    · have step : try_send_all q (x :: rest)
          = try_send_all { q with items := q.items ++ [x] } rest := by
        simp [try_send_all, BoundedQueue.try_send, hlt]
      rw [step]
      apply ih
      · simp only [List.length_append, List.length_cons, List.length_nil]
        omega
      · simp only [List.length_append, List.length_cons, List.length_nil]
        simp only [List.length_cons] at h
        omega
    · simp [try_send_all, BoundedQueue.try_send, hlt]

/-- C8: Channel::balance_list is equivalent to creating a balance channel with
the default buffer size 1024 and sending one Change::Insert(key, endpoint)
event per endpoint of the iterator, in iterator order, before returning the
channel. -/
theorem balance_list_refines_spec :
    ∀ (list : List Endpoint), Channel.balance_list list = balance_list_spec list := by
  intro list
  simp only [Channel.balance_list, Channel.balance_channel,
    Channel.balance_channel_with_executor, Channel.balance, BoundedQueue.new,
    DEFAULT_BUFFER_SIZE, balance_list_spec]
  by_cases h : list.length ≤ 1024
  · rw [try_send_all_fits _ _ (by simpa using h)]
    simp [h]
  · have hov : (1024 : Nat) < ([] : List (Change String Endpoint)).length
        + (list.map fun endpoint => Change.Insert endpoint.uri endpoint).length := by
      simp only [List.length_map, List.length_nil]
      omega
    rw [try_send_all_overflow _ _ (by simp) hov]
    simp [h]

/-- C9: balance_list enqueues every endpoint with try_send(..).unwrap() into a
change queue of capacity 1024: it returns normally for at most 1024 endpoints
and panics when the iterator yields more than the queue can accept (nothing
drains the queue during construction in this model). -/
theorem balance_list_capacity_panic (lok lover : List Endpoint)
    (hok : lok.length ≤ 1024) (hover : 1024 < lover.length) :
    Channel.balance_list lok
      = Except.ok
          (({ request_buffer_size := 1024, discover_queue_capacity := 1024 } : Channel String),
           ({ capacity := 1024,
              items := lok.map fun endpoint => Change.Insert endpoint.uri endpoint } :
             BoundedQueue (Change String Endpoint))) ∧
    Channel.balance_list lover = Except.error UnwrapPanic.panicked := by
  constructor
  · simp only [Channel.balance_list, Channel.balance_channel,
      Channel.balance_channel_with_executor, Channel.balance, BoundedQueue.new,
      DEFAULT_BUFFER_SIZE]
    rw [try_send_all_fits _ _ (by simpa using hok)]
    simp
  · simp only [Channel.balance_list, Channel.balance_channel,
      Channel.balance_channel_with_executor, Channel.balance, BoundedQueue.new,
      DEFAULT_BUFFER_SIZE]
    have hov : (1024 : Nat) < ([] : List (Change String Endpoint)).length
        + (lover.map fun endpoint => Change.Insert endpoint.uri endpoint).length := by
      simp only [List.length_map, List.length_nil]
      omega
    rw [try_send_all_overflow _ _ (by simp) hov]

/-- Witness for C9 at concrete inputs: the empty list and a list of 1025
endpoints. -/
theorem balance_list_capacity_panic_witness :
    ([] : List Endpoint).length ≤ 1024 ∧
    1024 < (List.replicate 1025 exEndpoint).length ∧
    Channel.balance_list (List.replicate 1025 exEndpoint)
      = Except.error UnwrapPanic.panicked :=
  ⟨by decide, by rw [List.length_replicate]; omega,
   (balance_list_capacity_panic [] (List.replicate 1025 exEndpoint) (by decide)
     (by rw [List.length_replicate]; omega)).2⟩

/-- C10: in balance_channel and balance_channel_with_executor the capacity
argument sets only the change-queue capacity; the request buffer between
channel clones and the worker always has the default size 1024. -/
theorem balance_channel_buffer_sizes :
    ∀ (K E : Type) (capacity : Nat) (executor : E),
      (Channel.balance_channel_with_executor K E capacity executor).channel.request_buffer_size
          = DEFAULT_BUFFER_SIZE ∧
      DEFAULT_BUFFER_SIZE = 1024 ∧
      (Channel.balance_channel_with_executor K E capacity executor).channel.discover_queue_capacity
          = capacity ∧
      (Channel.balance_channel_with_executor K E capacity executor).sender.capacity = capacity ∧
      (Channel.balance_channel K capacity).channel.request_buffer_size = 1024 ∧
      (Channel.balance_channel K capacity).channel.discover_queue_capacity = capacity := by
  intro K E capacity executor
  exact ⟨rfl, rfl, rfl, rfl, rfl, rfl⟩

/-- C4: Grpc::new leaves both compression sets empty (identity only) and both
optional size limits unset, which the codec resolves to the 4 MiB default in
each direction. -/
theorem grpc_new_defaults :
    ∀ (T : Type) (codec : T),
      (Grpc.new codec).accept_compression_encodings = EnabledCompressionEncodings.default ∧
      (Grpc.new codec).send_compression_encodings = EnabledCompressionEncodings.default ∧
      EnabledCompressionEncodings.default.gzip = false ∧
      EnabledCompressionEncodings.default.zstd = false ∧
      (Grpc.new codec).max_decoding_message_size = none ∧
      (Grpc.new codec).max_encoding_message_size = none ∧
      effective_message_size_limit (Grpc.new codec).max_decoding_message_size = 4 * 1024 * 1024 ∧
      effective_message_size_limit (Grpc.new codec).max_encoding_message_size = 4 * 1024 * 1024 := by
  intro T codec
  exact ⟨rfl, rfl, rfl, rfl, rfl, rfl, rfl, rfl⟩

theorem map_response_http_status {T M : Type} (g : Grpc T)
    (response : Except Status (Response (List (Except Status M))))
    (ae : Option CompressionEncoding) (co : SingleMessageCompressionOverride)
    (mx : Option Nat) :
    (Grpc.map_response g response ae co mx).http_status = 200 := by
  cases response with
  | error s => rfl
  | ok r => cases ae <;> rfl

theorem unary_http_status {T M R : Type} (g : Grpc T)
    (service : Request M → Except Status (Response R))
    (req : HttpRequest (UnaryBodyModel M)) :
    (Grpc.unary g service req).http_status = 200 := by
  unfold Grpc.unary
  cases h : g.map_request_unary req with
  | error s => exact map_response_http_status g _ _ _ _
  | ok request => exact map_response_http_status g _ _ _ _

theorem server_streaming_http_status {T M R : Type} (g : Grpc T)
    (service : Request M → Except Status (Response (List (Except Status R))))
    (req : HttpRequest (UnaryBodyModel M)) :
    (Grpc.server_streaming g service req).http_status = 200 := by
  unfold Grpc.server_streaming
  cases h : g.map_request_unary req with
  | error s => exact map_response_http_status g _ _ _ _
  | ok request => exact map_response_http_status g _ _ _ _

theorem client_streaming_http_status {T B R : Type} (g : Grpc T)
    (service : Request (Streaming B) → Except Status (Response R))
    (req : HttpRequest B) :
    (Grpc.client_streaming g service req).http_status = 200 := by
  unfold Grpc.client_streaming
  cases h : g.map_request_streaming req with
  | error s => rfl
  | ok request => exact map_response_http_status g _ _ _ _

theorem streaming_http_status {T B R : Type} (g : Grpc T)
    (service : Request (Streaming B) → Except Status (Response (List (Except Status R))))
    (req : HttpRequest B) :
    (Grpc.streaming g service req).http_status = 200 := by
  unfold Grpc.streaming
  cases h : g.map_request_streaming req with
  | error s => rfl
  | ok request => exact map_response_http_status g _ _ _ _

theorem unary_error_eq {T M R : Type} (g : Grpc T)
    (service : Request M → Except Status (Response R))
    (req : HttpRequest (UnaryBodyModel M)) (s0 : Status)
    (hmr : g.map_request_unary req = Except.error s0) :
    Grpc.unary g service req = Status.to_http s0 := by
  unfold Grpc.unary
  rw [hmr]
  rfl

theorem unary_ok_eq {T M R : Type} (g : Grpc T)
    (service : Request M → Except Status (Response R))
    (req : HttpRequest (UnaryBodyModel M)) (request : Request M)
    (hmr : g.map_request_unary req = Except.ok request) :
    Grpc.unary g service req
      = g.map_response ((service request).map fun r => r.map fun m => [Except.ok m])
          (CompressionEncoding.from_accept_encoding_header req.headers.grpc_accept_encoding
            g.send_compression_encodings)
          (compression_override_from_response
            (((service request).map fun r => r.map fun m => [Except.ok m]) :
              Except Status (Response (List (Except Status R)))))
          g.max_encoding_message_size := by
  unfold Grpc.unary
  rw [hmr]

theorem server_streaming_error_eq {T M R : Type} (g : Grpc T)
    (service : Request M → Except Status (Response (List (Except Status R))))
    (req : HttpRequest (UnaryBodyModel M)) (s0 : Status)
    (hmr : g.map_request_unary req = Except.error s0) :
    Grpc.server_streaming g service req = Status.to_http s0 := by
  unfold Grpc.server_streaming
  rw [hmr]
  rfl

theorem server_streaming_ok_eq {T M R : Type} (g : Grpc T)
    (service : Request M → Except Status (Response (List (Except Status R))))
    (req : HttpRequest (UnaryBodyModel M)) (request : Request M)
    (hmr : g.map_request_unary req = Except.ok request) :
    Grpc.server_streaming g service req
      = g.map_response (service request)
          (CompressionEncoding.from_accept_encoding_header req.headers.grpc_accept_encoding
            g.send_compression_encodings)
          SingleMessageCompressionOverride.default
          g.max_encoding_message_size := by
  unfold Grpc.server_streaming
  rw [hmr]

theorem client_streaming_error_eq {T B R : Type} (g : Grpc T)
    (service : Request (Streaming B) → Except Status (Response R))
    (req : HttpRequest B) (s0 : Status)
    (hmr : g.map_request_streaming req = Except.error s0) :
    Grpc.client_streaming g service req = Status.to_http s0 := by
  unfold Grpc.client_streaming
  rw [hmr]

theorem client_streaming_ok_eq {T B R : Type} (g : Grpc T)
    (service : Request (Streaming B) → Except Status (Response R))
    (req : HttpRequest B) (request : Request (Streaming B))
    (hmr : g.map_request_streaming req = Except.ok request) :
    Grpc.client_streaming g service req
      = g.map_response ((service request).map fun r => r.map fun m => [Except.ok m])
          (CompressionEncoding.from_accept_encoding_header req.headers.grpc_accept_encoding
            g.send_compression_encodings)
          (compression_override_from_response
            (((service request).map fun r => r.map fun m => [Except.ok m]) :
              Except Status (Response (List (Except Status R)))))
          g.max_encoding_message_size := by
  unfold Grpc.client_streaming
  rw [hmr]

theorem streaming_error_eq {T B R : Type} (g : Grpc T)
    (service : Request (Streaming B) → Except Status (Response (List (Except Status R))))
    (req : HttpRequest B) (s0 : Status)
    (hmr : g.map_request_streaming req = Except.error s0) :
    Grpc.streaming g service req = Status.to_http s0 := by
  unfold Grpc.streaming
  rw [hmr]

theorem streaming_ok_eq {T B R : Type} (g : Grpc T)
    (service : Request (Streaming B) → Except Status (Response (List (Except Status R))))
    (req : HttpRequest B) (request : Request (Streaming B))
    (hmr : g.map_request_streaming req = Except.ok request) :
    Grpc.streaming g service req
      = g.map_response (service request)
          (CompressionEncoding.from_accept_encoding_header req.headers.grpc_accept_encoding
            g.send_compression_encodings)
          SingleMessageCompressionOverride.default
          g.max_encoding_message_size := by
  unfold Grpc.streaming
  rw [hmr]

theorem unary_eq_of_failure {T M R : Type} (g : Grpc T)
    (service : Request M → Except Status (Response R))
    (req : HttpRequest (UnaryBodyModel M)) (s : Status)
    (hf : Grpc.unary_failure g service req = some s) :
    Grpc.unary g service req = Status.to_http s := by
  unfold Grpc.unary_failure at hf
  cases hmr : g.map_request_unary req with
  | error s0 =>
    rw [hmr] at hf
    have h2 : some s0 = some s := hf
    injection h2 with h3
    subst h3
    exact unary_error_eq g service req s0 hmr
  | ok request =>
    rw [hmr] at hf
    have h2 : (match service request with
      | Except.error s1 => some s1
      | Except.ok _ => none) = some s := hf
    cases hsv : service request with
    | error s0 =>
      rw [hsv] at h2
      have h3 : some s0 = some s := h2
      injection h3 with h4
      subst h4
      rw [unary_ok_eq g service req request hmr, hsv]
      rfl
    | ok resp =>
      rw [hsv] at h2
      have h3 : (none : Option Status) = some s := h2
      exact Option.noConfusion h3

theorem server_streaming_eq_of_failure {T M R : Type} (g : Grpc T)
    (service : Request M → Except Status (Response (List (Except Status R))))
    (req : HttpRequest (UnaryBodyModel M)) (s : Status)
    (hf : Grpc.server_streaming_failure g service req = some s) :
    Grpc.server_streaming g service req = Status.to_http s := by
  unfold Grpc.server_streaming_failure at hf
  cases hmr : g.map_request_unary req with
  | error s0 =>
    rw [hmr] at hf
    have h2 : some s0 = some s := hf
    injection h2 with h3
    subst h3
    exact server_streaming_error_eq g service req s0 hmr
  | ok request =>
    rw [hmr] at hf
    have h2 : (match service request with
      | Except.error s1 => some s1
      | Except.ok _ => none) = some s := hf
    cases hsv : service request with
    | error s0 =>
      rw [hsv] at h2
      have h3 : some s0 = some s := h2
      injection h3 with h4
      subst h4
      rw [server_streaming_ok_eq g service req request hmr, hsv]
      rfl
    | ok resp =>
      rw [hsv] at h2
      have h3 : (none : Option Status) = some s := h2
      exact Option.noConfusion h3

theorem client_streaming_eq_of_failure {T B R : Type} (g : Grpc T)
    (service : Request (Streaming B) → Except Status (Response R))
    (req : HttpRequest B) (s : Status)
    (hf : Grpc.client_streaming_failure g service req = some s) :
    Grpc.client_streaming g service req = Status.to_http s := by
  unfold Grpc.client_streaming_failure at hf
  cases hmr : g.map_request_streaming req with
  | error s0 =>
    rw [hmr] at hf
    have h2 : some s0 = some s := hf
    injection h2 with h3
    subst h3
    exact client_streaming_error_eq g service req s0 hmr
  | ok request =>
    rw [hmr] at hf
    have h2 : (match service request with
      | Except.error s1 => some s1
      | Except.ok _ => none) = some s := hf
    cases hsv : service request with
    | error s0 =>
      rw [hsv] at h2
      have h3 : some s0 = some s := h2
      injection h3 with h4
      subst h4
      rw [client_streaming_ok_eq g service req request hmr, hsv]
      rfl
    | ok resp =>
      rw [hsv] at h2
      have h3 : (none : Option Status) = some s := h2
      exact Option.noConfusion h3

theorem streaming_eq_of_failure {T B R : Type} (g : Grpc T)
    (service : Request (Streaming B) → Except Status (Response (List (Except Status R))))
    (req : HttpRequest B) (s : Status)
    (hf : Grpc.streaming_failure g service req = some s) :
    Grpc.streaming g service req = Status.to_http s := by
  unfold Grpc.streaming_failure at hf
  cases hmr : g.map_request_streaming req with
  | error s0 =>
    rw [hmr] at hf
    have h2 : some s0 = some s := hf
    injection h2 with h3
    subst h3
    exact streaming_error_eq g service req s0 hmr
  | ok request =>
    rw [hmr] at hf
    have h2 : (match service request with
      | Except.error s1 => some s1
      | Except.ok _ => none) = some s := hf
    cases hsv : service request with
    | error s0 =>
      rw [hsv] at h2
      have h3 : some s0 = some s := h2
      injection h3 with h4
      subst h4
      rw [streaming_ok_eq g service req request hmr, hsv]
      rfl
    | ok resp =>
      rw [hsv] at h2
      have h3 : (none : Option Status) = some s := h2
      exact Option.noConfusion h3

theorem code_toWire_ne_zero (c : Code) (h : c ≠ Code.Ok) : c.toWire ≠ 0 := by
  cases c <;> simp [Code.toWire] at h ⊢

/-- C1: every public dispatcher operation returns an HTTP response with status
200 on every input, and on every pipeline failure with a Status the returned
value is the trailers-only response of that status, whose grpc-status trailer
is non-OK when the status is. -/
theorem dispatcher_never_http_error {T M R B : Type} (g : Grpc T)
    (usvc : Request M → Except Status (Response R))
    (ssvc : Request M → Except Status (Response (List (Except Status R))))
    (csvc : Request (Streaming B) → Except Status (Response R))
    (bsvc : Request (Streaming B) → Except Status (Response (List (Except Status R))))
    (ureq : HttpRequest (UnaryBodyModel M)) (sreq : HttpRequest B) (s : Status)
    (hu : Grpc.unary_failure g usvc ureq = some s)
    (hs : Grpc.server_streaming_failure g ssvc ureq = some s)
    (hc : Grpc.client_streaming_failure g csvc sreq = some s)
    (hb : Grpc.streaming_failure g bsvc sreq = some s) :
    (∀ (usvc2 : Request M → Except Status (Response R))
       (ureq2 : HttpRequest (UnaryBodyModel M)),
       (Grpc.unary g usvc2 ureq2).http_status = 200) ∧
    (∀ (ssvc2 : Request M → Except Status (Response (List (Except Status R))))
       (ureq2 : HttpRequest (UnaryBodyModel M)),
       (Grpc.server_streaming g ssvc2 ureq2).http_status = 200) ∧
    (∀ (csvc2 : Request (Streaming B) → Except Status (Response R))
       (sreq2 : HttpRequest B),
       (Grpc.client_streaming g csvc2 sreq2).http_status = 200) ∧
    (∀ (bsvc2 : Request (Streaming B) → Except Status (Response (List (Except Status R))))
       (sreq2 : HttpRequest B),
       (Grpc.streaming g bsvc2 sreq2).http_status = 200) ∧
    Grpc.unary g usvc ureq = Status.to_http s ∧
    Grpc.server_streaming g ssvc ureq = Status.to_http s ∧
    Grpc.client_streaming g csvc sreq = Status.to_http s ∧
    Grpc.streaming g bsvc sreq = Status.to_http s ∧
    (Status.to_http (M := R) s).http_status = 200 ∧
    (Status.to_http (M := R) s).body = ResponseBody.trailers_only s ∧
    trailers_only_trailers s
        = ("grpc-status", Nat.repr s.code.toWire)
          :: (if s.code = Code.Ok then [] else [("grpc-message", s.message)]) ∧
    (s.code ≠ Code.Ok → s.code.toWire ≠ 0) := by
  refine ⟨fun usvc2 ureq2 => unary_http_status g usvc2 ureq2,
    fun ssvc2 ureq2 => server_streaming_http_status g ssvc2 ureq2,
    fun csvc2 sreq2 => client_streaming_http_status g csvc2 sreq2,
    fun bsvc2 sreq2 => streaming_http_status g bsvc2 sreq2,
    unary_eq_of_failure g usvc ureq s hu,
    server_streaming_eq_of_failure g ssvc ureq s hs,
    client_streaming_eq_of_failure g csvc sreq s hc,
    streaming_eq_of_failure g bsvc sreq s hb,
    rfl, rfl, rfl, code_toWire_ne_zero s.code⟩

/-- Witness for C1: all four pipelines fail with the concrete status boom. -/
theorem dispatcher_never_http_error_witness :
    Grpc.unary_failure (Grpc.new ()) exFailUsvc exUReqOne = some exStatusBoom ∧
    Grpc.server_streaming_failure (Grpc.new ()) exFailSsvc exUReqOne = some exStatusBoom ∧
    Grpc.client_streaming_failure (Grpc.new ()) exFailCsvc exSReq = some exStatusBoom ∧
    Grpc.streaming_failure (Grpc.new ()) exFailBsvc exSReq = some exStatusBoom ∧
    Grpc.unary (Grpc.new ()) exFailUsvc exUReqOne = Status.to_http exStatusBoom ∧
    Grpc.streaming (Grpc.new ()) exFailBsvc exSReq = Status.to_http exStatusBoom :=
  ⟨rfl, rfl, rfl, rfl,
   (dispatcher_never_http_error (Grpc.new ()) exFailUsvc exFailSsvc exFailCsvc exFailBsvc
     exUReqOne exSReq exStatusBoom rfl rfl rfl rfl).2.2.2.2.1,
   (dispatcher_never_http_error (Grpc.new ()) exFailUsvc exFailSsvc exFailCsvc exFailBsvc
     exUReqOne exSReq exStatusBoom rfl rfl rfl rfl).2.2.2.2.2.2.2.1⟩

/-- C2: when the request body reaches end-of-stream before any message frame
(and encoding negotiation succeeded), unary and server-streaming dispatch do
not invoke the user service and fail with Internal, message
"Missing request message.", wire code 13, as a trailers-only 200 response. -/
theorem unary_missing_request_message {T M R : Type} (g : Grpc T)
    (req : HttpRequest (UnaryBodyModel M)) (e : Option CompressionEncoding)
    (henc : g.request_encoding_if_supported req = Except.ok e)
    (hbody : req.body.first_message = Except.ok none) :
    (∀ (usvc : Request M → Except Status (Response R)),
       Grpc.unary g usvc req
         = Status.to_http { code := Code.Internal, message := "Missing request message." }) ∧
    (∀ (ssvc : Request M → Except Status (Response (List (Except Status R)))),
       Grpc.server_streaming g ssvc req
         = Status.to_http { code := Code.Internal, message := "Missing request message." }) ∧
    Code.Internal.toWire = 13 ∧
    (Status.to_http (M := R)
        { code := Code.Internal, message := "Missing request message." }).body
      = ResponseBody.trailers_only
          { code := Code.Internal, message := "Missing request message." } ∧
    (Status.to_http (M := R)
        { code := Code.Internal, message := "Missing request message." }).http_status = 200 := by
  have hmr : g.map_request_unary req
      = Except.error { code := Code.Internal, message := "Missing request message." } := by
    unfold Grpc.map_request_unary
    rw [henc, hbody]
  exact ⟨fun usvc => unary_error_eq g usvc req _ hmr,
    fun ssvc => server_streaming_error_eq g ssvc req _ hmr,
    rfl, rfl, rfl⟩

/-- Witness for C2 at a concrete empty-body request. -/
theorem unary_missing_request_message_witness :
    (Grpc.new ()).request_encoding_if_supported exUReqEmpty
        = Except.ok (none : Option CompressionEncoding) ∧
    exUReqEmpty.body.first_message = Except.ok (none : Option Nat) ∧
    Grpc.unary (Grpc.new ()) exFailUsvc exUReqEmpty
      = Status.to_http { code := Code.Internal, message := "Missing request message." } :=
  ⟨rfl, rfl,
   (unary_missing_request_message (Grpc.new ()) exUReqEmpty none rfl rfl).1 exFailUsvc⟩

/-- C3: a grpc-encoding header naming an encoding outside the accepted set
makes all four operations fail with Unimplemented and the standardized message
enumerating the accepted encodings, independently of the request body and of
the user service. -/
theorem unknown_request_encoding_rejected {T M R B : Type} (g : Grpc T)
    (hdrs : HttpRequestHeaders) (v : EncodingHeaderValue)
    (hv : hdrs.grpc_encoding = some v)
    (hacc : v.accepted_by g.accept_compression_encodings = false) :
    (∀ (body : UnaryBodyModel M) (usvc : Request M → Except Status (Response R)),
       Grpc.unary g usvc { headers := hdrs, body := body }
         = Status.to_http (unsupported_encoding_status g.accept_compression_encodings)) ∧
    (∀ (body : UnaryBodyModel M)
       (ssvc : Request M → Except Status (Response (List (Except Status R)))),
       Grpc.server_streaming g ssvc { headers := hdrs, body := body }
         = Status.to_http (unsupported_encoding_status g.accept_compression_encodings)) ∧
    (∀ (body : B) (csvc : Request (Streaming B) → Except Status (Response R)),
       Grpc.client_streaming g csvc { headers := hdrs, body := body }
         = Status.to_http (unsupported_encoding_status g.accept_compression_encodings)) ∧
    (∀ (body : B)
       (bsvc : Request (Streaming B) → Except Status (Response (List (Except Status R)))),
       Grpc.streaming g bsvc { headers := hdrs, body := body }
         = Status.to_http (unsupported_encoding_status g.accept_compression_encodings)) ∧
    (unsupported_encoding_status g.accept_compression_encodings).code = Code.Unimplemented ∧
    (unsupported_encoding_status g.accept_compression_encodings).message
      = "Content is compressed with an encoding that is not supported; accept-encoding: "
        ++ String.intercalate "," g.accept_compression_encodings.accepted_names := by
  have herr : ∀ (C : Type) (body : C),
      g.request_encoding_if_supported ({ headers := hdrs, body := body } : HttpRequest C)
        = Except.error (unsupported_encoding_status g.accept_compression_encodings) := by
    intro C body
    unfold Grpc.request_encoding_if_supported CompressionEncoding.from_encoding_header
    cases hvv : v with
    | identity =>
      rw [hvv] at hacc
      simp [EncodingHeaderValue.accepted_by] at hacc
    | known enc =>
      rw [hvv] at hacc
      simp only [EncodingHeaderValue.accepted_by] at hacc
      rw [hv, hvv]
      simp [hacc]
    | unknown nm =>
      rw [hv, hvv]
  have hmru : ∀ (body : UnaryBodyModel M),
      g.map_request_unary { headers := hdrs, body := body }
        = Except.error (unsupported_encoding_status g.accept_compression_encodings) := by
    intro body
    unfold Grpc.map_request_unary
    rw [herr _ body]
  have hmrs : ∀ (body : B),
      g.map_request_streaming ({ headers := hdrs, body := body } : HttpRequest B)
        = Except.error (unsupported_encoding_status g.accept_compression_encodings) := by
    intro body
    unfold Grpc.map_request_streaming
    rw [herr _ body]
  exact ⟨fun body usvc => unary_error_eq g usvc _ _ (hmru body),
    fun body ssvc => server_streaming_error_eq g ssvc _ _ (hmru body),
    fun body csvc => client_streaming_error_eq g csvc _ _ (hmrs body),
    fun body bsvc => streaming_error_eq g bsvc _ _ (hmrs body),
    rfl, rfl⟩

/-- Witness for C3 at a concrete request naming gzip against a server with an
empty accepted set. -/
theorem unknown_request_encoding_rejected_witness :
    c3hdrs.grpc_encoding = some (EncodingHeaderValue.known CompressionEncoding.gzip) ∧
    (EncodingHeaderValue.known CompressionEncoding.gzip).accepted_by
        (Grpc.new ()).accept_compression_encodings = false ∧
    Grpc.client_streaming (Grpc.new ()) exFailCsvc { headers := c3hdrs, body := () }
      = Status.to_http (unsupported_encoding_status (Grpc.new ()).accept_compression_encodings) :=
  ⟨rfl, rfl,
   (unknown_request_encoding_rejected (R := Nat) (M := Nat) (Grpc.new ()) c3hdrs
     (EncodingHeaderValue.known CompressionEncoding.gzip) rfl rfl).2.2.1 () exFailCsvc⟩

theorem map_response_framed_override {T M : Type} (g : Grpc T)
    (resp : Response (List (Except Status M))) (ae : Option CompressionEncoding)
    (co : SingleMessageCompressionOverride) (mx : Option Nat) :
    (Grpc.map_response g (Except.ok resp) ae co mx).framed_compression_override = some co := by
  cases ae <;> rfl

theorem map_response_error_framed_override {T M : Type} (g : Grpc T) (s0 : Status)
    (ae : Option CompressionEncoding) (co : SingleMessageCompressionOverride)
    (mx : Option Nat) :
    (Grpc.map_response (M := M) g (Except.error s0) ae co mx).framed_compression_override
      = none := rfl

/-- C5: the single-message compression override is honoured only for
single-message responses: unary and client-streaming pass the override read
from the successful response extensions to the response encoder, while
server-streaming and bi-directional always pass the default override, so a
framed multi-message body never carries the disable override. -/
theorem single_message_compression_override_scope {T M R B : Type} (g : Grpc T)
    (usvc : Request M → Except Status (Response R))
    (csvc : Request (Streaming B) → Except Status (Response R))
    (ureq : HttpRequest (UnaryBodyModel M)) (sreq : HttpRequest B)
    (requ : Request M) (reqc : Request (Streaming B)) (respu respc : Response R)
    (hmu : g.map_request_unary ureq = Except.ok requ)
    (hu : usvc requ = Except.ok respu)
    (hmc : g.map_request_streaming sreq = Except.ok reqc)
    (hc : csvc reqc = Except.ok respc) :
    (Grpc.unary g usvc ureq).framed_compression_override
        = some (respu.extensions_compression_override.getD
            SingleMessageCompressionOverride.inherit) ∧
    (Grpc.client_streaming g csvc sreq).framed_compression_override
        = some (respc.extensions_compression_override.getD
            SingleMessageCompressionOverride.inherit) ∧
    (∀ (ssvc : Request M → Except Status (Response (List (Except Status R))))
       (ureq2 : HttpRequest (UnaryBodyModel M)),
       (Grpc.server_streaming g ssvc ureq2).framed_compression_override
         ≠ some SingleMessageCompressionOverride.disable) ∧
    (∀ (bsvc : Request (Streaming B) → Except Status (Response (List (Except Status R))))
       (sreq2 : HttpRequest B),
       (Grpc.streaming g bsvc sreq2).framed_compression_override
         ≠ some SingleMessageCompressionOverride.disable) := by
  refine ⟨?_, ?_, ?_, ?_⟩
  · rw [unary_ok_eq g usvc ureq requ hmu, hu]
    exact map_response_framed_override g _ _ _ _
  · rw [client_streaming_ok_eq g csvc sreq reqc hmc, hc]
    exact map_response_framed_override g _ _ _ _
  · intro ssvc ureq2
    cases hmr : g.map_request_unary ureq2 with
    | error s0 =>
      rw [server_streaming_error_eq g ssvc ureq2 s0 hmr]
      simp [Status.to_http, HttpResponse.framed_compression_override]
    | ok request =>
      rw [server_streaming_ok_eq g ssvc ureq2 request hmr]
      cases hsv : ssvc request with
      | error s0 =>
        rw [map_response_error_framed_override]
        simp
      | ok resp2 =>
        rw [map_response_framed_override]
        simp [SingleMessageCompressionOverride.default]
  · intro bsvc sreq2
    cases hmr : g.map_request_streaming sreq2 with
    | error s0 =>
      rw [streaming_error_eq g bsvc sreq2 s0 hmr]
      simp [Status.to_http, HttpResponse.framed_compression_override]
    | ok request =>
      rw [streaming_ok_eq g bsvc sreq2 request hmr]
      cases hsv : bsvc request with
      | error s0 =>
        rw [map_response_error_framed_override]
        simp
      | ok resp2 =>
        rw [map_response_framed_override]
        simp [SingleMessageCompressionOverride.default]

/-- Witness for C5: a concrete unary exchange whose response carries the
disable override, observed in the framed body handed to the encoder. -/
theorem single_message_compression_override_scope_witness :
    (Grpc.new ()).map_request_unary exUReqOne
        = Except.ok ({ metadata := exMeta, message := 0 } : Request Nat) ∧
    exDisUsvc { metadata := exMeta, message := 0 } = Except.ok exRespDisable ∧
    (Grpc.new ()).map_request_streaming exSReq
        = Except.ok
            ({ metadata := exMeta,
               message := { body := (), encoding := none, max_message_size := none } } :
              Request (Streaming Unit)) ∧
    exDisCsvc
        { metadata := exMeta,
          message := { body := (), encoding := none, max_message_size := none } }
        = Except.ok exRespDisable ∧
    (Grpc.unary (Grpc.new ()) exDisUsvc exUReqOne).framed_compression_override
        = some SingleMessageCompressionOverride.disable :=
  ⟨rfl, rfl, rfl, rfl,
   (single_message_compression_override_scope (Grpc.new ()) exDisUsvc exDisCsvc exUReqOne
     exSReq { metadata := exMeta, message := 0 }
     { metadata := exMeta,
       message := { body := (), encoding := none, max_message_size := none } }
     exRespDisable exRespDisable rfl rfl rfl rfl).1⟩

theorem find?_pred_congr {A : Type} (l : List A) (p q : A → Bool)
    (h : ∀ x ∈ l, p x = q x) : l.find? p = l.find? q := by
  induction l with
  | nil => rfl
  | cons x xs ih =>
    have hx := h x (by simp)
    by_cases hp : p x = true
    · rw [List.find?_cons_of_pos _ hp, List.find?_cons_of_pos _ (hx ▸ hp)]
    · have hq : ¬ q x = true := by rw [← hx]; exact hp
      rw [List.find?_cons_of_neg _ hp, List.find?_cons_of_neg _ hq]
      exact ih fun y hy => h y (by simp [hy])

theorem find?_meta_insert_self (l : List (String × List String)) (k : String)
    (vs : List String) :
    ((meta_insert l k vs).find? fun p => p.1 == k) = some (k, vs) := by
  have h1 : ((l.filter fun p => !(p.1 == k)).find? fun p => p.1 == k) = none := by
    rw [List.find?_eq_none]
    intro x hx
    rw [List.mem_filter] at hx
    have h2 := hx.2
    simp only [Bool.not_eq_true'] at h2
    simp [h2]
  simp [meta_insert, List.find?_append, h1]

theorem find?_meta_insert_ne (l : List (String × List String)) (k k2 : String)
    (vs : List String) (h : k2 ≠ k) :
    ((meta_insert l k vs).find? fun p => p.1 == k2) = l.find? fun p => p.1 == k2 := by
  have h2 : ((k : String) == k2) = false := beq_eq_false_iff_ne.mpr (Ne.symm h)
  have h3 : ((l.filter fun p => !(p.1 == k)).find? fun p => p.1 == k2)
      = l.find? fun p => p.1 == k2 := by
    rw [List.find?_filter]
    apply find?_pred_congr
    intro x hx
    by_cases hk2 : (x.1 == k2) = true
    · have hxk : (x.1 == k) = false := by
        have hx2 : x.1 = k2 := by simpa using hk2
        rw [hx2]
        exact beq_eq_false_iff_ne.mpr h
      simp [hk2, hxk]
    · simp [hk2]
  simp [meta_insert, List.find?_append, h3, h2]

theorem merge_entries_get?_not_mem :
    ∀ (other base : List (String × List String)) (k : String),
      (∀ p ∈ other, p.1 ≠ k) →
      ((other.foldl (fun acc p => meta_insert acc p.1 p.2) base).find? fun p => p.1 == k)
        = base.find? fun p => p.1 == k := by
  intro other
  induction other with
  | nil => intro base k h; rfl
  | cons x xs ih =>
    intro base k h
    rw [List.foldl_cons, ih _ k fun p hp => h p (List.mem_cons_of_mem x hp)]
    exact find?_meta_insert_ne base x.1 k x.2 (Ne.symm (h x (List.mem_cons_self x xs)))

theorem merge_entries_get?_mem :
    ∀ (other base : List (String × List String)) (k : String) (e2 : String × List String),
      (other.map Prod.fst).Nodup →
      other.find? (fun p => p.1 == k) = some e2 →
      ((other.foldl (fun acc p => meta_insert acc p.1 p.2) base).find? fun p => p.1 == k)
        = some e2 := by
  intro other
  induction other with
  | nil => intro base k e2 hnd hfind; simp at hfind
  | cons x xs ih =>
    intro base k e2 hnd hfind
    rw [List.foldl_cons]
    by_cases hx : (x.1 == k) = true
    · rw [List.find?_cons_of_pos (p := fun q => q.1 == k) xs hx] at hfind
      injection hfind with he
      subst he
      have hx1 : x.1 = k := by simpa using hx
      have hnotin : x.1 ∉ xs.map Prod.fst := (List.nodup_cons.mp (by simpa using hnd)).1
      have hrest : ∀ p ∈ xs, p.1 ≠ k := by
        intro p hp hpk
        exact hnotin (List.mem_map.mpr ⟨p, hp, by rw [hpk, hx1]⟩)
      rw [merge_entries_get?_not_mem xs _ k hrest, ← hx1]
      exact find?_meta_insert_self base x.1 x.2
    · rw [List.find?_cons_of_neg (p := fun q => q.1 == k) xs hx] at hfind
      have hnd2 : (xs.map Prod.fst).Nodup := (List.nodup_cons.mp (by simpa using hnd)).2
      exact ih _ k e2 hnd2 hfind

theorem merge_get? (m other : MetadataMap) (k : String) :
    MetadataMap.get? (m.merge other) k
      = ((other.entries.foldl (fun acc p => meta_insert acc p.1 p.2) m.entries).find?
          fun p => p.1 == k).map Prod.snd := rfl

/-- Counterexample to C6 as stated: a key present in both the initial headers
and the body trailers ends up with the trailer values only; the header values
do not precede them. -/
theorem metadata_merge_append_counterexample :
    (((Grpc.new ()).map_request_unary c6req).map fun r => MetadataMap.get? r.metadata "k")
        = Except.ok (some ["t1"]) ∧
    (some ["t1"] : Option (List String)) ≠ some ["h1", "t1"] :=
  ⟨rfl, by decide⟩

/-- C6 as amended: after a successful unary decode the request metadata is the
merge of the initial headers with the terminal trailers, in which every key of
the trailers appears with exactly the trailer values (replacing any header
values for that key), and keys absent from the trailers keep their header
values. -/
theorem metadata_merge_trailers_take_precedence {T M : Type} (g : Grpc T)
    (req : HttpRequest (UnaryBodyModel M)) (msg : M) (tr : MetadataMap)
    (e : Option CompressionEncoding)
    (henc : g.request_encoding_if_supported req = Except.ok e)
    (hmsg : req.body.first_message = Except.ok (some msg))
    (htr : req.body.trailers = Except.ok (some tr))
    (hnd : (tr.entries.map Prod.fst).Nodup) :
    g.map_request_unary req
        = Except.ok { metadata := req.headers.metadata.merge tr, message := msg } ∧
    (∀ (k : String) (vs : List String), MetadataMap.get? tr k = some vs →
       MetadataMap.get? (req.headers.metadata.merge tr) k = some vs) ∧
    (∀ (k : String), MetadataMap.get? tr k = none →
       MetadataMap.get? (req.headers.metadata.merge tr) k
         = MetadataMap.get? req.headers.metadata k) := by
  refine ⟨?_, ?_, ?_⟩
  · unfold Grpc.map_request_unary
    rw [henc, hmsg, htr]
    rfl
  · intro k vs hget
    unfold MetadataMap.get? at hget
    rw [merge_get?]
    cases hfind : tr.entries.find? fun p => p.1 == k with
    | none => rw [hfind] at hget; simp at hget
    | some e2 =>
      rw [hfind] at hget
      rw [merge_entries_get?_mem tr.entries req.headers.metadata.entries k e2 hnd hfind]
      exact hget
  · intro k hget
    unfold MetadataMap.get? at hget
    rw [merge_get?]
    have hnone : (tr.entries.find? fun p => p.1 == k) = none := by
      cases hf : tr.entries.find? fun p => p.1 == k with
      | none => rfl
      | some e2 => rw [hf] at hget; simp at hget
    have hall : ∀ p ∈ tr.entries, p.1 ≠ k := by
      rw [List.find?_eq_none] at hnone
      intro p hp hpk
      exact hnone p hp (by simp [hpk])
    rw [merge_entries_get?_not_mem tr.entries req.headers.metadata.entries k hall]
    rfl

/-- Witness for the amended C6 at the concrete request of the counterexample. -/
theorem metadata_merge_trailers_take_precedence_witness :
    (Grpc.new ()).request_encoding_if_supported c6req
        = Except.ok (none : Option CompressionEncoding) ∧
    c6req.body.first_message = Except.ok (some 0) ∧
    c6req.body.trailers = Except.ok (some { entries := [("k", ["t1"])] }) ∧
    (List.map Prod.fst ({ entries := [("k", ["t1"])] } : MetadataMap).entries).Nodup ∧
    MetadataMap.get? (c6req.headers.metadata.merge { entries := [("k", ["t1"])] }) "k"
        = some ["t1"] :=
  ⟨rfl, rfl, rfl, by simp,
   (metadata_merge_trailers_take_precedence (Grpc.new ()) c6req 0
     { entries := [("k", ["t1"])] } none rfl rfl rfl (by simp)).2.1 "k" ["t1"] rfl⟩

theorem any_pred_congr {A : Type} (l : List A) (p q : A → Bool)
    (h : ∀ x ∈ l, p x = q x) : l.any p = l.any q := by
  induction l with
  | nil => rfl
  | cons x xs ih =>
    simp only [List.any_cons, h x (by simp), ih fun y hy => h y (by simp [hy])]

theorem has_header_insert_self (hs : List (String × String)) (k v : String) :
    has_header (header_insert hs k v) k v = true := by
  simp [has_header, header_insert]

theorem has_header_insert_ne (hs : List (String × String)) (k v k2 v2 : String)
    (h : k2 ≠ k) :
    has_header (header_insert hs k v) k2 v2 = has_header hs k2 v2 := by
  have h2 : ((k : String) == k2) = false := beq_eq_false_iff_ne.mpr (Ne.symm h)
  simp only [has_header, header_insert, List.any_append, List.any_filter,
    List.any_cons, List.any_nil, h2, Bool.false_and, Bool.or_false]
  apply any_pred_congr
  intro x hx
  cases hk2 : (x.1 == k2) with
  | true =>
    have hxk : (x.1 == k) = false := by
      have hx2 : x.1 = k2 := by simpa using hk2
      rw [hx2]
      exact beq_eq_false_iff_ne.mpr h
    simp [hxk, hk2]
  | false => simp [hk2]

theorem to_http_content_type {M : Type} (s : Status) :
    has_header (Status.to_http (M := M) s).headers "content-type" "application/grpc"
      = true := by
  simp [Status.to_http, has_header]

theorem map_response_content_type {T M : Type} (g : Grpc T)
    (response : Except Status (Response (List (Except Status M))))
    (ae : Option CompressionEncoding) (co : SingleMessageCompressionOverride)
    (mx : Option Nat) :
    has_header (Grpc.map_response g response ae co mx).headers
      "content-type" "application/grpc" = true := by
  cases response with
  | error s => exact to_http_content_type s
  | ok r =>
    cases ae with
    | none =>
      show has_header (header_insert (metadata_headers r.metadata)
          "content-type" "application/grpc") "content-type" "application/grpc" = true
      exact has_header_insert_self _ _ _
    | some enc =>
      show has_header (header_insert (header_insert (metadata_headers r.metadata)
          "content-type" "application/grpc") "grpc-encoding" enc.name)
          "content-type" "application/grpc" = true
      rw [has_header_insert_ne _ _ _ _ _ (by decide)]
      exact has_header_insert_self _ _ _

theorem map_response_grpc_encoding {T M : Type} (g : Grpc T)
    (resp : Response (List (Except Status M))) (enc : CompressionEncoding)
    (co : SingleMessageCompressionOverride) (mx : Option Nat) :
    has_header (Grpc.map_response g (Except.ok resp) (some enc) co mx).headers
      "grpc-encoding" enc.name = true := by
  show has_header (header_insert (header_insert (metadata_headers resp.metadata)
      "content-type" "application/grpc") "grpc-encoding" enc.name)
      "grpc-encoding" enc.name = true
  exact has_header_insert_self _ _ _

theorem unary_content_type {T M R : Type} (g : Grpc T)
    (usvc : Request M → Except Status (Response R))
    (ureq : HttpRequest (UnaryBodyModel M)) :
    has_header (Grpc.unary g usvc ureq).headers "content-type" "application/grpc"
      = true := by
  cases hmr : g.map_request_unary ureq with
  | error s0 =>
    rw [unary_error_eq g usvc ureq s0 hmr]
    exact to_http_content_type s0
  | ok request =>
    rw [unary_ok_eq g usvc ureq request hmr]
    exact map_response_content_type g _ _ _ _

theorem server_streaming_content_type {T M R : Type} (g : Grpc T)
    (ssvc : Request M → Except Status (Response (List (Except Status R))))
    (ureq : HttpRequest (UnaryBodyModel M)) :
    has_header (Grpc.server_streaming g ssvc ureq).headers "content-type" "application/grpc"
      = true := by
  cases hmr : g.map_request_unary ureq with
  | error s0 =>
    rw [server_streaming_error_eq g ssvc ureq s0 hmr]
    exact to_http_content_type s0
  | ok request =>
    rw [server_streaming_ok_eq g ssvc ureq request hmr]
    exact map_response_content_type g _ _ _ _

theorem client_streaming_content_type {T B R : Type} (g : Grpc T)
    (csvc : Request (Streaming B) → Except Status (Response R))
    (sreq : HttpRequest B) :
    has_header (Grpc.client_streaming g csvc sreq).headers "content-type" "application/grpc"
      = true := by
  cases hmr : g.map_request_streaming sreq with
  | error s0 =>
    rw [client_streaming_error_eq g csvc sreq s0 hmr]
    exact to_http_content_type s0
  | ok request =>
    rw [client_streaming_ok_eq g csvc sreq request hmr]
    exact map_response_content_type g _ _ _ _

theorem streaming_content_type {T B R : Type} (g : Grpc T)
    (bsvc : Request (Streaming B) → Except Status (Response (List (Except Status R))))
    (sreq : HttpRequest B) :
    has_header (Grpc.streaming g bsvc sreq).headers "content-type" "application/grpc"
      = true := by
  cases hmr : g.map_request_streaming sreq with
  | error s0 =>
    rw [streaming_error_eq g bsvc sreq s0 hmr]
    exact to_http_content_type s0
  | ok request =>
    rw [streaming_ok_eq g bsvc sreq request hmr]
    exact map_response_content_type g _ _ _ _

/-- Counterexample to C7 as stated: with gzip negotiated from the accept
header, a failure-path response (body decode fails before any message) carries
no grpc-encoding header at all, though it does carry content-type. -/
theorem response_encoding_header_counterexample :
    CompressionEncoding.from_accept_encoding_header c7req.headers.grpc_accept_encoding
        c7g.send_compression_encodings = some CompressionEncoding.gzip ∧
    Grpc.unary c7g c7svc c7req
      = Status.to_http { code := Code.Internal, message := "Missing request message." } ∧
    ((Grpc.unary c7g c7svc c7req).headers.any fun p => p.1 == "grpc-encoding") = false ∧
    has_header (Grpc.unary c7g c7svc c7req).headers "content-type" "application/grpc"
      = true :=
  ⟨rfl, rfl, by decide, by decide⟩

/-- C7 as amended: every response of the four operations carries content-type
application/grpc; a response built from a successful service response under a
negotiated non-identity encoding additionally carries the grpc-encoding header
naming it (failure-path trailers-only responses do not). -/
theorem response_headers_contract {T M R B : Type} (g : Grpc T)
    (usvc : Request M → Except Status (Response R))
    (ureq : HttpRequest (UnaryBodyModel M)) (requ : Request M) (respu : Response R)
    (enc : CompressionEncoding)
    (hmu : g.map_request_unary ureq = Except.ok requ)
    (hu : usvc requ = Except.ok respu)
    (hneg : CompressionEncoding.from_accept_encoding_header ureq.headers.grpc_accept_encoding
        g.send_compression_encodings = some enc) :
    (∀ (usvc2 : Request M → Except Status (Response R))
       (ureq2 : HttpRequest (UnaryBodyModel M)),
       has_header (Grpc.unary g usvc2 ureq2).headers "content-type" "application/grpc"
         = true) ∧
    (∀ (ssvc2 : Request M → Except Status (Response (List (Except Status R))))
       (ureq2 : HttpRequest (UnaryBodyModel M)),
       has_header (Grpc.server_streaming g ssvc2 ureq2).headers
         "content-type" "application/grpc" = true) ∧
    (∀ (csvc2 : Request (Streaming B) → Except Status (Response R))
       (sreq2 : HttpRequest B),
       has_header (Grpc.client_streaming g csvc2 sreq2).headers
         "content-type" "application/grpc" = true) ∧
    (∀ (bsvc2 : Request (Streaming B) → Except Status (Response (List (Except Status R))))
       (sreq2 : HttpRequest B),
       has_header (Grpc.streaming g bsvc2 sreq2).headers
         "content-type" "application/grpc" = true) ∧
    (∀ (resp : Response (List (Except Status R))) (co : SingleMessageCompressionOverride)
       (mx : Option Nat) (e2 : CompressionEncoding),
       has_header (Grpc.map_response g (Except.ok resp) (some e2) co mx).headers
         "grpc-encoding" e2.name = true) ∧
    has_header (Grpc.unary g usvc ureq).headers "grpc-encoding" enc.name = true := by
  refine ⟨fun usvc2 ureq2 => unary_content_type g usvc2 ureq2,
    fun ssvc2 ureq2 => server_streaming_content_type g ssvc2 ureq2,
    fun csvc2 sreq2 => client_streaming_content_type g csvc2 sreq2,
    fun bsvc2 sreq2 => streaming_content_type g bsvc2 sreq2,
    fun resp co mx e2 => map_response_grpc_encoding g resp e2 co mx, ?_⟩
  rw [unary_ok_eq g usvc ureq requ hmu, hu, hneg]
  exact map_response_grpc_encoding g _ enc _ _

/-- Witness for the amended C7: a successful unary exchange with gzip
negotiated carries the grpc-encoding header. -/
theorem response_headers_contract_witness :
    c7g.map_request_unary { headers := c7req.headers, body := exBodyOne }
        = Except.ok ({ metadata := exMeta, message := 0 } : Request Nat) ∧
    c7svc { metadata := exMeta, message := 0 }
        = Except.ok
            { metadata := exMeta, extensions_compression_override := none, message := 0 } ∧
    CompressionEncoding.from_accept_encoding_header c7req.headers.grpc_accept_encoding
        c7g.send_compression_encodings = some CompressionEncoding.gzip ∧
    has_header (Grpc.unary c7g c7svc
        { headers := c7req.headers, body := exBodyOne }).headers
      "grpc-encoding" CompressionEncoding.gzip.name = true :=
  ⟨rfl, rfl, rfl,
   (response_headers_contract (B := Unit) c7g c7svc
     { headers := c7req.headers, body := exBodyOne } { metadata := exMeta, message := 0 }
     { metadata := exMeta, extensions_compression_override := none, message := 0 }
     CompressionEncoding.gzip rfl rfl rfl).2.2.2.2.2⟩

end Tonic
